import Mathlib

/-!
# The llama adapter class `llama_llm` (models/llms/llama.cc)

The class forwards every operation to the wrapped inference library.  The
embedding keeps the wrapper code as Lean functions and takes everything the
file does not define as parameters:

* `Library`  - the functions of the wrapped library (and `rng.seed`) the file calls;
* `Base`     - the two member functions of `llm.h` used by `Sample`;
* `now`      - the value `time(nullptr)` yields at the call.

C++ `float` values are an arbitrary type `F` with a zero, a one and decidable
equality: the file only copies floats, writes the literal `0.0f` and tests
`repetition_penalty != 1.0f`, which holds exactly when the value is not the
float one.  C++ `int` values are `Int`; the only narrowing conversions are
written with `wrapInt32`.

A method that dereferences `ctx_` yields `none` when `ctx_` is the null pointer.
Every modelled method reports, next to its result and the new object state,
the sequence of calls it made to its collaborators, with their arguments.
-/

namespace Llama

/-- Conversion of an integer to the 32-bit C++ `int` (wrap around). -/
def wrapInt32 (x : Int) : Int := (x + 2147483648) % 4294967296 - 2147483648

/-- Modelled from the spec: the constant `kEmptyString` of `llm.h`, which is not among
the sources; it is the empty-string sentinel. -/
def kEmptyString : String := ""

/-- The struct `llama_token_data` as `Sample` builds it: `{id, logit, p}`. -/
structure llama_token_data (F : Type) where
  id : Int
  logit : F
  p : F
deriving DecidableEq

/-- The struct `llama_token_data_array`: `{data, size, sorted}`. -/
structure llama_token_data_array (F : Type) where
  data : List (llama_token_data F)
  size : Nat
  sorted : Bool
deriving DecidableEq

/-- The struct `llama_context_params`: the five fields `Load` assigns, and all the
remaining fields together as `other`. -/
structure llama_context_params (P : Type) where
  n_ctx : Int
  n_gpu_layers : Int
  use_mmap : Bool
  use_mlock : Bool
  embedding : Bool
  other : P
deriving DecidableEq

/-- The fields of `Config` (declared in `llm.h`) that `Load` reads. -/
structure Config where
  context_length : Int
  gpu_layers : Int
  mmap : Bool
  mlock : Bool
deriving DecidableEq

/-- The struct `llama_context`: the two fields the file writes (`rng`, `model_owner`)
and everything else (model, vocabulary, logits, caches) as `rest`. -/
structure llama_context (Rng Rest : Type) where
  rng : Rng
  model_owner : Bool
  rest : Rest
deriving DecidableEq

/-- A `std::unordered_set<gpt_vocab::id>`, given by its iteration sequence, in which no
element occurs twice. -/
structure unordered_set where
  elems : List Int
  nodup : elems.Nodup

/-- The default-constructed (empty) set. -/
def unordered_set.empty : unordered_set := ⟨[], List.nodup_nil⟩

/-- The data members of the base class `LLM` (file `llm.h`) that the file uses:
the stored context length and the ring buffer of emitted tokens. -/
structure LLM (Hist : Type) where
  n_ctx_ : Int
  previous_tokens_ : Hist
deriving DecidableEq

/-- The object state of `llama_llm : public LLM`: the base-class members and its own
private members `ctx_` (`none` is the null pointer) and `detokenized_text_`. -/
structure llama_llm (Rng Rest Hist : Type) extends LLM Hist where
  ctx_ : Option (llama_context Rng Rest)
  detokenized_text_ : String
deriving DecidableEq

/-- The member functions of `llm.h` that `Sample` calls: `ContextLength()` of the base
class, which sees the base-class members only, and `GetRecent(n)` of the ring buffer. -/
structure Base (Hist : Type) where
  ContextLength : LLM Hist → Int
  GetRecent : Hist → Int → unordered_set

/-- The functions of the wrapped library called by the file, on a non-null context;
`rng_seed` is `std::mt19937::seed`, `llama_get_logits c i` is the float read at index
`i` of the returned pointer.  A null pointer result is `none`. -/
structure Library (F Rng Rest Model P : Type) where
  llama_n_vocab : llama_context Rng Rest → Int
  llama_token_to_text : llama_context Rng Rest → Int → String
  llama_token_eos : llama_context Rng Rest → Int
  llama_token_bos : llama_context Rng Rest → Int
  rng_seed : Int → Rng
  llama_get_logits : llama_context Rng Rest → Int → F
  llama_sample_repetition_penalty : llama_context Rng Rest → llama_token_data_array F →
    List Int → Nat → F → llama_context Rng Rest × llama_token_data_array F
  llama_sample_top_k : llama_context Rng Rest → llama_token_data_array F →
    Int → Nat → llama_context Rng Rest × llama_token_data_array F
  llama_sample_top_p : llama_context Rng Rest → llama_token_data_array F →
    F → Nat → llama_context Rng Rest × llama_token_data_array F
  llama_sample_temperature : llama_context Rng Rest → llama_token_data_array F →
    F → llama_context Rng Rest × llama_token_data_array F
  llama_sample_token : llama_context Rng Rest → llama_token_data_array F →
    llama_context Rng Rest × Int
  llama_context_default_params : llama_context_params P
  llama_load_model_from_file : String → llama_context_params P → Option Model
  llama_new_context_with_model : Option Model → llama_context_params P →
    Option (llama_context Rng Rest)
  llama_n_ctx : llama_context Rng Rest → Int
  llama_eval : llama_context Rng Rest → List Int → Int → Int → Int →
    llama_context Rng Rest × Int

/-- One call made by a method to a collaborator, with its arguments (for a library
function the context the pointer `ctx_` denotes at the call comes first). -/
inductive Call (F Rng Rest Model P : Type) where
  | llama_n_vocab (ctx : llama_context Rng Rest)
  | llama_token_to_text (ctx : llama_context Rng Rest) (id : Int)
  | ContextLength
  | time
  | rng_seed (seed : Int)
  | llama_get_logits (ctx : llama_context Rng Rest)
  | GetRecent (n : Int)
  | llama_sample_repetition_penalty (ctx : llama_context Rng Rest)
      (candidates : llama_token_data_array F) (last_tokens : List Int)
      (last_tokens_size : Nat) (penalty : F)
  | llama_sample_top_k (ctx : llama_context Rng Rest)
      (candidates : llama_token_data_array F) (k : Int) (min_keep : Nat)
  | llama_sample_top_p (ctx : llama_context Rng Rest)
      (candidates : llama_token_data_array F) (p : F) (min_keep : Nat)
  | llama_sample_temperature (ctx : llama_context Rng Rest)
      (candidates : llama_token_data_array F) (temp : F)
  | llama_sample_token (ctx : llama_context Rng Rest)
      (candidates : llama_token_data_array F)
  | llama_context_default_params
  | llama_load_model_from_file (path_model : String) (params : llama_context_params P)
  | llama_new_context_with_model (model : Option Model) (params : llama_context_params P)
  | llama_n_ctx (ctx : llama_context Rng Rest)
  | llama_eval (ctx : llama_context Rng Rest) (tokens : List Int) (n_tokens : Int)
      (n_past : Int) (n_threads : Int)
deriving DecidableEq

/-- What a method call yields: the returned value, the object state after the call and
the calls made, in order. -/
structure Outcome (α S C : Type) where
  value : α
  self : S
  calls : List C
deriving DecidableEq

variable {F Rng Rest Model P Hist : Type}

/-- The method `VocabSize`. -/
def VocabSize (lib : Library F Rng Rest Model P) (self : llama_llm Rng Rest Hist) :
    Option Int :=
  match self.ctx_ with
  | none => none
  | some ctx => some (lib.llama_n_vocab ctx)

/-- The method `EosToken`. -/
def EosToken (lib : Library F Rng Rest Model P) (self : llama_llm Rng Rest Hist) :
    Option Int :=
  match self.ctx_ with
  | none => none
  | some ctx => some (lib.llama_token_eos ctx)

/-- The method `BosToken`. -/
def BosToken (lib : Library F Rng Rest Model P) (self : llama_llm Rng Rest Hist) :
    Option Int :=
  match self.ctx_ with
  | none => none
  | some ctx => some (lib.llama_token_bos ctx)

/-- The method `IsEosToken`: `token == EosToken()`. -/
def IsEosToken (lib : Library F Rng Rest Model P) (self : llama_llm Rng Rest Hist)
    (token : Int) : Option Bool :=
  match EosToken lib self with
  | none => none
  | some eos => some (decide (token = eos))

/-- The method `Detokenize`; the value is the string the returned reference denotes
when the call returns. -/
def Detokenize (lib : Library F Rng Rest Model P) (self : llama_llm Rng Rest Hist)
    (id : Int) : Option (Outcome String (llama_llm Rng Rest Hist) (Call F Rng Rest Model P)) :=
  match self.ctx_ with
  | none => none
  | some ctx =>
    if id ≥ lib.llama_n_vocab ctx then
      some ⟨kEmptyString, self, [Call.llama_n_vocab ctx]⟩
    else
      let self1 := { self with detokenized_text_ := lib.llama_token_to_text ctx id }
      some ⟨self1.detokenized_text_, self1,
        [Call.llama_n_vocab ctx, Call.llama_token_to_text ctx id]⟩

/-- The loop of `Sample` that fills `candidates`: `fuel` bounds the number of
iterations, `token_id` is the loop variable. -/
def candidatesLoop [Zero F] (logits : Int → F) (n_vocab : Int) :
    Nat → Int → List (llama_token_data F) → List (llama_token_data F)
  | 0, _, candidates => candidates
  | fuel + 1, token_id, candidates =>
    if token_id < n_vocab then
      candidatesLoop logits n_vocab fuel (token_id + 1)
        (candidates ++ [⟨token_id, logits token_id, 0⟩])
    else candidates

/-- The method `Sample`; `now` is the value of `time(nullptr)`. -/
def Sample [Zero F] [One F] [DecidableEq F] (lib : Library F Rng Rest Model P)
    (base : Base Hist) (now : Int) (self : llama_llm Rng Rest Hist)
    (top_k : Int) (top_p temperature repetition_penalty : F) (last_n_tokens seed : Int) :
    Option (Outcome Int (llama_llm Rng Rest Hist) (Call F Rng Rest Model P)) :=
  match self.ctx_ with
  | none => none
  | some ctx =>
    let n1 := if last_n_tokens < 0 then base.ContextLength self.toLLM else last_n_tokens
    let calls1 : List (Call F Rng Rest Model P) := if last_n_tokens < 0 then [Call.ContextLength] else []
    let seed1 := if seed < 0 then wrapInt32 now else seed
    let calls2 : List (Call F Rng Rest Model P) := if seed < 0 then [Call.time] else []
    let ctx1 := { ctx with rng := lib.rng_seed seed1 }
    let logits := lib.llama_get_logits ctx1
    let n_vocab := lib.llama_n_vocab ctx1
    let candidates := candidatesLoop logits n_vocab n_vocab.toNat 0 []
    let candidates_p : llama_token_data_array F := ⟨candidates, candidates.length, false⟩
    let recent_tokens_set :=
      if repetition_penalty ≠ 1 then base.GetRecent self.previous_tokens_ n1
      else unordered_set.empty
    let calls3 : List (Call F Rng Rest Model P) :=
      if repetition_penalty ≠ 1 then [Call.GetRecent n1] else []
    let recent_tokens := recent_tokens_set.elems
    let r1 := lib.llama_sample_repetition_penalty ctx1 candidates_p recent_tokens
      recent_tokens.length repetition_penalty
    let r2 := lib.llama_sample_top_k r1.1 r1.2 top_k 1
    let r3 := lib.llama_sample_top_p r2.1 r2.2 top_p 1
    let r4 := lib.llama_sample_temperature r3.1 r3.2 temperature
    let r5 := lib.llama_sample_token r4.1 r4.2
    some ⟨r5.2, { self with ctx_ := some r5.1 },
      calls1 ++ calls2 ++
        [Call.rng_seed seed1, Call.llama_get_logits ctx1, Call.llama_n_vocab ctx1] ++
        calls3 ++
        [Call.llama_sample_repetition_penalty ctx1 candidates_p recent_tokens
            recent_tokens.length repetition_penalty,
          Call.llama_sample_top_k r1.1 r1.2 top_k 1,
          Call.llama_sample_top_p r2.1 r2.2 top_p 1,
          Call.llama_sample_temperature r3.1 r3.2 temperature,
          Call.llama_sample_token r4.1 r4.2]⟩

/-- The parameter struct `Load` builds before it calls the library (the statements
from `llama_context_default_params()` to `params.use_mlock = config.mlock`). -/
def LoadParams (lib : Library F Rng Rest Model P) (config : Config) :
    llama_context_params P :=
  let params0 := lib.llama_context_default_params
  let params1 := { params0 with embedding := true }
  let params2 :=
    if config.context_length > 0 then { params1 with n_ctx := config.context_length }
    else params1
  let params3 := { params2 with n_gpu_layers := config.gpu_layers }
  let params4 := { params3 with use_mmap := config.mmap }
  { params4 with use_mlock := config.mlock }

/-- The method `Load`. -/
def Load (lib : Library F Rng Rest Model P) (self : llama_llm Rng Rest Hist)
    (filename : String) (config : Config) :
    Outcome Bool (llama_llm Rng Rest Hist) (Call F Rng Rest Model P) :=
  let params := LoadParams lib config
  let model := lib.llama_load_model_from_file filename params
  match lib.llama_new_context_with_model model params with
  | none =>
    ⟨false, { self with ctx_ := none },
      [Call.llama_context_default_params, Call.llama_load_model_from_file filename params,
        Call.llama_new_context_with_model model params]⟩
  | some ctx =>
    let ctx1 := { ctx with model_owner := true }
    ⟨true, { self with ctx_ := some ctx1, n_ctx_ := lib.llama_n_ctx ctx1 },
      [Call.llama_context_default_params, Call.llama_load_model_from_file filename params,
        Call.llama_new_context_with_model model params, Call.llama_n_ctx ctx1]⟩

/-- The method `Eval`; `tokens.size()` is converted to the `int` parameter of the
library function. -/
def Eval (lib : Library F Rng Rest Model P) (self : llama_llm Rng Rest Hist)
    (tokens : List Int) (threads n_past : Int) :
    Option (Outcome Bool (llama_llm Rng Rest Hist) (Call F Rng Rest Model P)) :=
  match self.ctx_ with
  | none => none
  | some ctx =>
    let r := lib.llama_eval ctx tokens (wrapInt32 tokens.length) n_past threads
    let status := r.2
    some ⟨decide (status = 0), { self with ctx_ := some r.1 },
      [Call.llama_eval ctx tokens (wrapInt32 tokens.length) n_past threads]⟩

/-! ## What the spec says of library code that is not among the sources -/

/-- A library instance with the three-piece vocabulary `a`, `b`, `c` (end of sequence:
`2`), which renders any other id as the empty text.  Floats are the integral values, the generator
state is the last seed plus the number of draws, `rest` holds the logits.  The sampling
steps keep the candidates, except that top-k keeps the first `max k min_keep` of them;
the draw picks the candidate at the index given by the generator state.  Only
`model.bin` can be loaded, and a context is made from a loaded model only. -/
def demoLib : Library Int Int (List Int) String Unit where
  llama_n_vocab := fun _ => 3
  llama_token_to_text := fun _ id =>
    if id = 0 then "a" else if id = 1 then "b" else if id = 2 then "c" else ""
  llama_token_eos := fun _ => 2
  llama_token_bos := fun _ => 1
  rng_seed := fun s => s
  llama_get_logits := fun c i => c.rest.getD i.toNat 0
  llama_sample_repetition_penalty := fun c cands _ _ _ => (c, cands)
  llama_sample_top_k := fun c cands k m =>
    (c, { cands with data := cands.data.take (max k.toNat m),
                     size := min cands.size (max k.toNat m) })
  llama_sample_top_p := fun c cands _ _ => (c, cands)
  llama_sample_temperature := fun c cands _ => (c, cands)
  llama_sample_token := fun c cands =>
    ({ c with rng := c.rng + 1 },
      ((cands.data.get? (c.rng.toNat % cands.data.length)).map (fun d => d.id)).getD 0)
  llama_context_default_params := ⟨512, 0, true, false, false, ()⟩
  llama_load_model_from_file := fun f _ => if f = "model.bin" then some f else none
  llama_new_context_with_model := fun m _ =>
    match m with
    | none => none
    | some _ => some ⟨0, false, List.replicate 3 0⟩
  llama_n_ctx := fun _ => 512
  llama_eval := fun c tokens n _ _ =>
    if n = 0 then (c, 1) else ({ c with rest := tokens.take 3 }, 0)

/-- The library `demoLib` with sampling steps that use their arguments: the repetition
penalty lowers the logit of every token of the list it is handed by the penalty, and
top-k keeps the `max k min_keep` candidates of highest logit, highest first. -/
def greedyLib : Library Int Int (List Int) String Unit :=
  { demoLib with
    llama_sample_repetition_penalty := fun c cands last_tokens _ penalty =>
      (c, { cands with data := cands.data.map (fun d =>
              if d.id ∈ last_tokens then { d with logit := d.logit - penalty } else d) })
    llama_sample_top_k := fun c cands k m =>
      (c, { data := (cands.data.insertionSort (fun a b => a.logit ≥ b.logit)).take
                      (max k.toNat m),
            size := min cands.size (max k.toNat m),
            sorted := true }) }

/-- A library instance that remembers its parameter structs: a loaded model is the struct
it was loaded with, the `rest` of a context is that struct together with the struct the
context was made with, and the context length reported is the `n_ctx` of the latter.
Only `model.bin` can be loaded, and a context is made from a loaded model only. -/
def paramLib : Library Int Int (llama_context_params Unit × llama_context_params Unit)
    (llama_context_params Unit) Unit where
  llama_n_vocab := fun _ => 0
  llama_token_to_text := fun _ _ => ""
  llama_token_eos := fun _ => 0
  llama_token_bos := fun _ => 0
  rng_seed := fun s => s
  llama_get_logits := fun _ _ => 0
  llama_sample_repetition_penalty := fun c cands _ _ _ => (c, cands)
  llama_sample_top_k := fun c cands _ _ => (c, cands)
  llama_sample_top_p := fun c cands _ _ => (c, cands)
  llama_sample_temperature := fun c cands _ => (c, cands)
  llama_sample_token := fun c _ => (c, 0)
  llama_context_default_params := ⟨512, 0, true, false, false, ()⟩
  llama_load_model_from_file := fun f p => if f = "model.bin" then some p else none
  llama_new_context_with_model := fun m p =>
    match m with
    | none => none
    | some q => some ⟨0, false, (q, p)⟩
  llama_n_ctx := fun c => c.rest.2.n_ctx
  llama_eval := fun c _ _ _ _ => (c, 0)

/-- An object of `paramLib` before `Load`. -/
def paramObj : llama_llm Int (llama_context_params Unit × llama_context_params Unit)
    (List Int) :=
  { n_ctx_ := -1, previous_tokens_ := [], ctx_ := none, detokenized_text_ := "" }

/-- Base-class members for the instances: the context length is the stored `n_ctx_`,
the ring buffer is the list of emitted tokens, latest first, and `GetRecent n` is the
set of its first `n` tokens. -/
def demoBase : Base (List Int) where
  ContextLength := fun b => b.n_ctx_
  GetRecent := fun h n => ⟨(h.take n.toNat).dedup, List.nodup_dedup _⟩

/-- A context of `demoLib` with logits `5, 7, 6`. -/
def demoCtx : llama_context Int (List Int) := ⟨0, true, [5, 7, 6]⟩

/-- A loaded object: context `demoCtx`, empty scratch string, tokens `1, 1, 2` emitted. -/
def demoObj : llama_llm Int (List Int) (List Int) :=
  { n_ctx_ := 512, previous_tokens_ := [1, 1, 2], ctx_ := some demoCtx,
    detokenized_text_ := "" }

/-- A configuration with a context length of 2048. -/
def demoConfig : Config := ⟨2048, 4, true, false⟩

/-! ## Theorems -/

/-- The candidate loop, run with enough fuel from `token_id`, appends one entry for each
id from `token_id` up to `n_vocab - 1`, in increasing order. -/
theorem candidatesLoop_eq [Zero F] (logits : Int → F) (n_vocab : Int) :
    ∀ (fuel : Nat) (token_id : Int) (acc : List (llama_token_data F)),
      (n_vocab - token_id).toNat ≤ fuel →
      candidatesLoop logits n_vocab fuel token_id acc =
        acc ++ (List.range (n_vocab - token_id).toNat).map
          (fun (i : Nat) => (⟨token_id + (i : Int), logits (token_id + (i : Int)), 0⟩ :
            llama_token_data F)) := by
  intro fuel
  induction fuel with
  | zero =>
    intro token_id acc h
    have h0 : (n_vocab - token_id).toNat = 0 := by omega
    simp [candidatesLoop, h0]
  | succ k ih =>
    intro token_id acc h
    unfold candidatesLoop
    by_cases hlt : token_id < n_vocab
    · rw [if_pos hlt, ih (token_id + 1) _ (by omega)]
      have hk : (n_vocab - token_id).toNat = (n_vocab - (token_id + 1)).toNat + 1 := by omega
      rw [hk, List.range_succ_eq_map]
      simp only [List.map_cons, List.map_map, List.append_assoc, List.singleton_append,
        Nat.cast_zero, add_zero]
      congr 2
      apply List.map_congr_left
      intro i _
      simp only [Function.comp, Nat.cast_succ]
      have e : token_id + 1 + (i : Int) = token_id + ((i : Int) + 1) := by ring
      rw [e]
    · have h0 : (n_vocab - token_id).toNat = 0 := by omega
      rw [if_neg hlt, h0]
      simp

/-- The candidates `Sample` builds: the fuel `n_vocab.toNat` is enough, and the result has
one entry for each id `0 .. n_vocab - 1`, in increasing order. -/
theorem candidatesLoop_full [Zero F] (logits : Int → F) (n_vocab : Int) :
    candidatesLoop logits n_vocab n_vocab.toNat 0 [] =
      (List.range n_vocab.toNat).map
        (fun (i : Nat) => (⟨(i : Int), logits (i : Int), 0⟩ : llama_token_data F)) := by
  rw [candidatesLoop_eq logits n_vocab n_vocab.toNat 0 [] (by simp)]
  simp

/-- C1: for a loaded object and every token id with `id >= VocabSize()`, `Detokenize(id)`
returns the empty string and makes no call of the token-to-text conversion of the
library (its only call is the vocabulary-size query); the object is left as it was. -/
theorem Detokenize_beyond_vocab (lib : Library F Rng Rest Model P)
    (self : llama_llm Rng Rest Hist) (id n : Int)
    (hn : VocabSize lib self = some n) (hid : id ≥ n) :
    ∃ out, Detokenize lib self id = some out ∧ out.value = "" ∧ out.self = self ∧
      ∀ c t, Call.llama_token_to_text c t ∉ out.calls := by
  unfold VocabSize at hn
  cases hc : self.ctx_ with
  | none => simp [hc] at hn
  | some ctx =>
    simp only [hc, Option.some.injEq] at hn
    subst hn
    simp [Detokenize, hc, hid, kEmptyString]

/-- C1 at a concrete input: vocabulary size 3, id 5. -/
theorem Detokenize_beyond_vocab_witness :
    VocabSize demoLib demoObj = some 3 ∧ (5 : Int) ≥ 3 ∧
    ∃ out, Detokenize demoLib demoObj 5 = some out ∧ out.value = "" ∧ out.self = demoObj ∧
      ∀ c t, Call.llama_token_to_text c t ∉ out.calls :=
  ⟨rfl, by decide, Detokenize_beyond_vocab demoLib demoObj 5 3 rfl (by decide)⟩

/-- C5: on a loaded object, for every token `t`, `IsEosToken(t)` is true if and only if
`t` equals `EosToken()`, which is the end-of-sequence token the library reports for the
context. -/
theorem IsEosToken_iff_EosToken (lib : Library F Rng Rest Model P)
    (self : llama_llm Rng Rest Hist) (ctx : llama_context Rng Rest) (token : Int)
    (hctx : self.ctx_ = some ctx) :
    ∃ b eos, IsEosToken lib self token = some b ∧ EosToken lib self = some eos ∧
      eos = lib.llama_token_eos ctx ∧ (b = true ↔ token = eos) := by
  refine ⟨decide (token = lib.llama_token_eos ctx), lib.llama_token_eos ctx, ?_, ?_, rfl, ?_⟩
  · simp [IsEosToken, EosToken, hctx]
  · simp [EosToken, hctx]
  · simp

/-- C5 at a concrete input: token 2 is the end-of-sequence token of `demoLib`. -/
theorem IsEosToken_iff_EosToken_witness :
    demoObj.ctx_ = some demoCtx ∧
    ∃ b eos, IsEosToken demoLib demoObj 2 = some b ∧ EosToken demoLib demoObj = some eos ∧
      eos = demoLib.llama_token_eos demoCtx ∧ (b = true ↔ (2 : Int) = eos) :=
  ⟨rfl, IsEosToken_iff_EosToken demoLib demoObj demoCtx 2 rfl⟩

/-- C6: on a loaded object, for every token vector, thread count and `n_past`, `Eval`
returns, and it returns true if and only if the evaluation call of the library returns
status 0; every nonzero status yields false.  The library is called once, with the
tokens, their number, `n_past` and the thread count. -/
theorem Eval_true_iff_status_zero (lib : Library F Rng Rest Model P)
    (self : llama_llm Rng Rest Hist) (ctx : llama_context Rng Rest)
    (tokens : List Int) (threads n_past : Int) (hctx : self.ctx_ = some ctx) :
    ∃ out, Eval lib self tokens threads n_past = some out ∧
      out.calls = [Call.llama_eval ctx tokens (wrapInt32 tokens.length) n_past threads] ∧
      (out.value = true ↔
        (lib.llama_eval ctx tokens (wrapInt32 tokens.length) n_past threads).2 = 0) ∧
      ((lib.llama_eval ctx tokens (wrapInt32 tokens.length) n_past threads).2 ≠ 0 →
        out.value = false) := by
  refine ⟨_, by simp only [Eval, hctx]; rfl, rfl, ?_, ?_⟩
  · simp
  · intro h
    simp [h]

/-- C6 at a concrete input: two tokens, four threads, nothing evaluated before. -/
theorem Eval_true_iff_status_zero_witness :
    demoObj.ctx_ = some demoCtx ∧
    ∃ out, Eval demoLib demoObj [0, 1] 4 0 = some out ∧
      out.calls = [Call.llama_eval demoCtx [0, 1] (wrapInt32 ([0, 1] : List Int).length) 0 4] ∧
      (out.value = true ↔
        (demoLib.llama_eval demoCtx [0, 1] (wrapInt32 ([0, 1] : List Int).length) 0 4).2 = 0) ∧
      ((demoLib.llama_eval demoCtx [0, 1] (wrapInt32 ([0, 1] : List Int).length) 0 4).2 ≠ 0 →
        out.value = false) :=
  ⟨rfl, Eval_true_iff_status_zero demoLib demoObj demoCtx [0, 1] 4 0 rfl⟩

/-- C8 as stated fails: after `Detokenize(0)` returned `a`, the call `Detokenize(5)` on a
vocabulary of size 3 returns the empty string, yet the scratch string still holds `a`. -/
theorem Detokenize_scratch_kept_beyond_vocab :
    VocabSize demoLib demoObj = some 3 ∧
    ((Detokenize demoLib demoObj 0).bind (fun o1 => Detokenize demoLib o1.self 5)).map
      (fun o2 => (o2.value, o2.self.detokenized_text_)) = some ("", "a") := by
  decide

/-- C8, amended: on a loaded object a call `Detokenize(id)` with `id < VocabSize()`
overwrites the scratch string, which afterwards holds the text returned by that call
(the text the library yields for `id`); a call with `id >= VocabSize()` returns the empty
string and leaves the scratch string as it was. -/
theorem Detokenize_scratch (lib : Library F Rng Rest Model P)
    (self : llama_llm Rng Rest Hist) (ctx : llama_context Rng Rest) (id : Int)
    (hctx : self.ctx_ = some ctx) :
    ∃ out, Detokenize lib self id = some out ∧
      (id < lib.llama_n_vocab ctx →
        out.self.detokenized_text_ = out.value ∧
        out.value = lib.llama_token_to_text ctx id) ∧
      (id ≥ lib.llama_n_vocab ctx →
        out.self.detokenized_text_ = self.detokenized_text_ ∧ out.value = "") := by
  by_cases h : id ≥ lib.llama_n_vocab ctx
  · exact ⟨_, by simp only [Detokenize, hctx, if_pos h]; rfl,
      fun h2 => absurd h (not_le.mpr h2), fun _ => ⟨rfl, rfl⟩⟩
  · exact ⟨_, by simp only [Detokenize, hctx, if_neg h]; rfl, fun _ => ⟨rfl, rfl⟩,
      fun h2 => absurd h2 h⟩

/-- C8, amended, at a concrete input: id 1 of a vocabulary of size 3. -/
theorem Detokenize_scratch_witness :
    demoObj.ctx_ = some demoCtx ∧
    ∃ out, Detokenize demoLib demoObj 1 = some out ∧
      ((1 : Int) < demoLib.llama_n_vocab demoCtx →
        out.self.detokenized_text_ = out.value ∧
        out.value = demoLib.llama_token_to_text demoCtx 1) ∧
      ((1 : Int) ≥ demoLib.llama_n_vocab demoCtx →
        out.self.detokenized_text_ = demoObj.detokenized_text_ ∧ out.value = "") :=
  ⟨rfl, Detokenize_scratch demoLib demoObj demoCtx 1 rfl⟩

/-- With a seed `>= 0`, the token `Sample` returns is the same on two objects that agree
on the base-class members and whose contexts agree on everything but the generator
state, at any two clock readings. -/
theorem Sample_value_reseeded [Zero F] [One F] [DecidableEq F]
    (lib : Library F Rng Rest Model P) (base : Base Hist)
    (self1 self2 : llama_llm Rng Rest Hist) (c1 c2 : llama_context Rng Rest)
    (now1 now2 top_k : Int) (top_p temperature repetition_penalty : F)
    (last_n_tokens seed : Int)
    (h1 : self1.ctx_ = some c1) (h2 : self2.ctx_ = some c2)
    (hb : self1.toLLM = self2.toLLM) (hmo : c1.model_owner = c2.model_owner)
    (hrest : c1.rest = c2.rest) (hseed : 0 ≤ seed) :
    (Sample lib base now1 self1 top_k top_p temperature repetition_penalty
        last_n_tokens seed).map (fun o => o.value) =
      (Sample lib base now2 self2 top_k top_p temperature repetition_penalty
        last_n_tokens seed).map (fun o => o.value) := by
  obtain ⟨b1, o1, t1⟩ := self1
  obtain ⟨b2, o2, t2⟩ := self2
  obtain ⟨r1, m1, s1⟩ := c1
  obtain ⟨r2, m2, s2⟩ := c2
  simp only at h1 h2 hb hmo hrest
  subst h1 h2 hb hmo hrest
  simp [Sample, not_lt.mpr hseed]

/-- C3: `Sample` is deterministic for a fixed non-negative seed.  On a loaded object the
call returns a token, and a call with the same arguments and the same seed `>= 0` returns
the same token whatever the state of the random generator and whatever the clock reading
at either call, because the generator is reseeded before any sampling step: this holds
for every `top_k` (in particular `top_k = 1`), `top_p`, temperature, repetition penalty
and `last_n_tokens`.  In particular the call repeated on the object the first call left
returns the same token when the first call changed nothing of the context but the
generator state. -/
theorem Sample_deterministic [Zero F] [One F] [DecidableEq F]
    (lib : Library F Rng Rest Model P) (base : Base Hist) (self : llama_llm Rng Rest Hist)
    (ctx : llama_context Rng Rest) (rng2 : Rng) (now1 now2 top_k : Int)
    (top_p temperature repetition_penalty : F) (last_n_tokens seed : Int)
    (hctx : self.ctx_ = some ctx) (hseed : 0 ≤ seed) :
    ∃ out,
      Sample lib base now1 self top_k top_p temperature repetition_penalty
        last_n_tokens seed = some out ∧
      (Sample lib base now2 { self with ctx_ := some { ctx with rng := rng2 } } top_k top_p
        temperature repetition_penalty last_n_tokens seed).map (fun o => o.value) =
        some out.value ∧
      (∀ c, out.self.ctx_ = some c → c.model_owner = ctx.model_owner → c.rest = ctx.rest →
        (Sample lib base now2 out.self top_k top_p temperature repetition_penalty
          last_n_tokens seed).map (fun o => o.value) = some out.value) := by
  have hex : ∃ out, Sample lib base now1 self top_k top_p temperature repetition_penalty
      last_n_tokens seed = some out ∧ out.self.toLLM = self.toLLM :=
    ⟨_, by simp only [Sample, hctx]; rfl, rfl⟩
  obtain ⟨out, hout, hb⟩ := hex
  refine ⟨out, hout, ?_, ?_⟩
  · rw [← Sample_value_reseeded lib base self
      { self with ctx_ := some { ctx with rng := rng2 } } ctx { ctx with rng := rng2 }
      now1 now2 top_k top_p temperature repetition_penalty last_n_tokens seed hctx rfl rfl
      rfl rfl hseed, hout]
    rfl
  · intro c hc hmo hrest
    rw [← Sample_value_reseeded lib base self out.self ctx c now1 now2 top_k top_p
      temperature repetition_penalty last_n_tokens seed hctx hc hb.symm hmo.symm
      hrest.symm hseed, hout]
    rfl

/-- C3 at a concrete input: greedy sampling (`top_k = 1`) with seed 42 on `demoObj`, then
again from generator state 7 at another clock reading; both calls return token 0. -/
theorem Sample_deterministic_witness :
    demoObj.ctx_ = some demoCtx ∧ (0 : Int) ≤ 42 ∧
    (Sample demoLib demoBase 1000 demoObj 1 1 1 2 (-1) 42).map (fun o => o.value) = some 0 ∧
    (Sample demoLib demoBase 2000 { demoObj with ctx_ := some { demoCtx with rng := 7 } }
      1 1 1 2 (-1) 42).map (fun o => o.value) = some 0 :=
  ⟨rfl, by decide, by decide,
    (Sample_deterministic demoLib demoBase demoObj demoCtx 7 1000 2000 1 1 1 2 (-1) 42 rfl
      (by decide)).elim (fun out h => by
        have h0 : (Sample demoLib demoBase 1000 demoObj 1 1 1 2 (-1) 42).map
            (fun o => o.value) = some 0 := by decide
        have h1 : out.value = 0 := by
          rw [h.1] at h0
          exact Option.some.inj h0
        rw [h.2.1, h1])⟩

/-- C9: the parameter struct `Load` passes to the library is the default parameter struct
with `embedding` set to true, `n_gpu_layers`, `use_mmap` and `use_mlock` taken from the
config, and `n_ctx` taken from the config when `config.context_length > 0` and left at its
default otherwise; every other field keeps its default value.  It is the struct the
model loader and the context constructor are applied to: the value `Load` returns and the
context it stores are those of the constructor applied to the model the loader yields
for that struct, and to that struct. -/
theorem Load_params_from_config (lib : Library F Rng Rest Model P)
    (self : llama_llm Rng Rest Hist) (filename : String) (config : Config) :
    let params : llama_context_params P :=
      { lib.llama_context_default_params with
        embedding := true
        n_ctx := if config.context_length > 0 then config.context_length
                 else lib.llama_context_default_params.n_ctx
        n_gpu_layers := config.gpu_layers
        use_mmap := config.mmap
        use_mlock := config.mlock }
    LoadParams lib config = params ∧
    params.other = lib.llama_context_default_params.other ∧
    (config.context_length ≤ 0 → params.n_ctx = lib.llama_context_default_params.n_ctx) ∧
    (Load lib self filename config).value =
      (lib.llama_new_context_with_model
        (lib.llama_load_model_from_file filename params) params).isSome ∧
    (Load lib self filename config).self.ctx_ =
      (lib.llama_new_context_with_model
        (lib.llama_load_model_from_file filename params) params).map
        (fun ctx => { ctx with model_owner := true }) ∧
    (Load lib self filename config).calls.take 3 =
      [Call.llama_context_default_params,
        Call.llama_load_model_from_file filename params,
        Call.llama_new_context_with_model
          (lib.llama_load_model_from_file filename params) params] := by
  intro params
  have hp : LoadParams lib config = params := by
    unfold LoadParams
    by_cases h : config.context_length > 0 <;> simp [params, h]
  refine ⟨hp, rfl, ?_, ?_, ?_, ?_⟩
  · intro h
    simp [params, not_lt.mpr h]
  · rw [← hp]
    cases h : lib.llama_new_context_with_model
      (lib.llama_load_model_from_file filename (LoadParams lib config))
      (LoadParams lib config) <;> simp [Load, h]
  · rw [← hp]
    cases h : lib.llama_new_context_with_model
      (lib.llama_load_model_from_file filename (LoadParams lib config))
      (LoadParams lib config) <;> simp [Load, h]
  · rw [← hp]
    cases h : lib.llama_new_context_with_model
      (lib.llama_load_model_from_file filename (LoadParams lib config))
      (LoadParams lib config) <;> simp [Load, h]

/-- C9 at concrete inputs: on `paramLib`, whose contexts remember the structs the loader
and the constructor received, `Load` with `demoConfig` stores a context made from the
struct with `n_ctx = 2048`, 4 GPU layers and `embedding` set; with a context length of 0
the default `n_ctx = 512` is kept. -/
theorem Load_params_from_config_witness :
    (Load paramLib paramObj "model.bin" demoConfig).self.ctx_ =
      some ⟨0, true, (⟨2048, 4, true, false, true, ()⟩, ⟨2048, 4, true, false, true, ()⟩)⟩ ∧
    (Load paramLib paramObj "model.bin" { demoConfig with context_length := 0 }).self.ctx_ =
      some ⟨0, true, (⟨512, 4, true, false, true, ()⟩, ⟨512, 4, true, false, true, ()⟩)⟩ :=
  ⟨(Load_params_from_config paramLib paramObj "model.bin" demoConfig).2.2.2.2.1.trans
      (by decide),
    (Load_params_from_config paramLib paramObj "model.bin"
      { demoConfig with context_length := 0 }).2.2.2.2.1.trans (by decide)⟩

/-- C4: on a loaded object `Sample` returns, and the token it returns and the context it
leaves are those of the five library steps run from the context whose generator state is
`rng.seed(s)` and on the recent tokens `GetRecent(n)`, where `s` is the seed of the
caller when `seed >= 0` and the current time (as an `int`) when `seed < 0`, and `n` is
`last_n_tokens` of the caller when it is `>= 0` and `ContextLength()` when it is
negative.  The clock is read exactly when the seed is negative, and `ContextLength()` is
called exactly when `last_n_tokens` is negative. -/
theorem Sample_defaults [Zero F] [One F] [DecidableEq F]
    (lib : Library F Rng Rest Model P) (base : Base Hist) (self : llama_llm Rng Rest Hist)
    (ctx : llama_context Rng Rest) (now top_k : Int)
    (top_p temperature repetition_penalty : F) (last_n_tokens seed : Int)
    (hctx : self.ctx_ = some ctx) :
    ∃ out,
      Sample lib base now self top_k top_p temperature repetition_penalty
        last_n_tokens seed = some out ∧
      let s := if seed < 0 then wrapInt32 now else seed
      let n := if last_n_tokens < 0 then base.ContextLength self.toLLM else last_n_tokens
      let ctx1 : llama_context Rng Rest := { ctx with rng := lib.rng_seed s }
      let candidates := candidatesLoop (lib.llama_get_logits ctx1) (lib.llama_n_vocab ctx1)
        (lib.llama_n_vocab ctx1).toNat 0 []
      let recent := (if repetition_penalty ≠ 1 then base.GetRecent self.previous_tokens_ n
        else unordered_set.empty).elems
      let r1 := lib.llama_sample_repetition_penalty ctx1
        ⟨candidates, candidates.length, false⟩ recent recent.length repetition_penalty
      let r2 := lib.llama_sample_top_k r1.1 r1.2 top_k 1
      let r3 := lib.llama_sample_top_p r2.1 r2.2 top_p 1
      let r4 := lib.llama_sample_temperature r3.1 r3.2 temperature
      let r5 := lib.llama_sample_token r4.1 r4.2
      out.value = r5.2 ∧ out.self = { self with ctx_ := some r5.1 } ∧
      (0 ≤ seed → s = seed) ∧ (seed < 0 → s = wrapInt32 now) ∧
      (0 ≤ last_n_tokens → n = last_n_tokens) ∧
      (last_n_tokens < 0 → n = base.ContextLength self.toLLM) ∧
      (Call.time ∈ out.calls ↔ seed < 0) ∧
      (Call.ContextLength ∈ out.calls ↔ last_n_tokens < 0) := by
  refine ⟨_, by simp only [Sample, hctx]; rfl, ?_⟩
  refine ⟨rfl, rfl, ?_, ?_, ?_, ?_, ?_, ?_⟩
  · intro h
    simp [not_lt.mpr h]
  · intro h
    simp [h]
  · intro h
    simp [not_lt.mpr h]
  · intro h
    simp [h]
  · by_cases hs : seed < 0 <;> by_cases hn : last_n_tokens < 0 <;>
      by_cases hp : repetition_penalty = 1 <;> simp [hs, hn, hp]
  · by_cases hs : seed < 0 <;> by_cases hn : last_n_tokens < 0 <;>
      by_cases hp : repetition_penalty = 1 <;> simp [hs, hn, hp]

/-- C4 at concrete inputs, on `greedyLib` with penalty 2: with seed 42 and
`last_n_tokens = 2` the generator ends at 43 and the window holds token 1 only, so token
2 is drawn; with seed `-1` at clock reading 1000 and `last_n_tokens = -1` the generator
ends at 1001 and the window is the whole history. -/
theorem Sample_defaults_witness :
    demoObj.ctx_ = some demoCtx ∧
    (Sample greedyLib demoBase 1000 demoObj 1 1 1 2 2 42).map
      (fun o => (o.value, o.self.ctx_)) = some (2, some ⟨43, true, [5, 7, 6]⟩) ∧
    (Sample greedyLib demoBase 1000 demoObj 1 1 1 2 (-1) (-1)).map
      (fun o => (o.value, o.self.ctx_)) = some (0, some ⟨1001, true, [5, 7, 6]⟩) := by
  obtain ⟨outA, hA, hvA, hsA, -⟩ :=
    Sample_defaults greedyLib demoBase demoObj demoCtx 1000 1 1 1 2 2 42 rfl
  obtain ⟨outB, hB, hvB, hsB, -⟩ :=
    Sample_defaults greedyLib demoBase demoObj demoCtx 1000 1 1 1 2 (-1) (-1) rfl
  refine ⟨rfl, ?_, ?_⟩
  · rw [hA, Option.map_some', hvA, hsA]
    decide
  · rw [hB, Option.map_some', hvB, hsB]
    decide

/-- C10: on a loaded object the token `Sample` returns and the context it leaves are
those of the library steps with the repetition-penalty step applied to these arguments.
The list of recent tokens is empty whenever `repetition_penalty` equals 1, for every
`last_n_tokens` and every token history; when the penalty differs from 1 it is the
content of `previous_tokens_.GetRecent(n)`, every token once, with `n` the value of
`last_n_tokens` after the default for negative values.  The candidate array has one
entry for each token id from `0` to the vocabulary size minus one, in increasing order,
with the logit of that id and probability 0; its size is the vocabulary size and its
sorted flag is false. -/
theorem Sample_repetition_penalty_arguments [Zero F] [One F] [DecidableEq F]
    (lib : Library F Rng Rest Model P) (base : Base Hist) (self : llama_llm Rng Rest Hist)
    (ctx : llama_context Rng Rest) (now top_k : Int)
    (top_p temperature repetition_penalty : F) (last_n_tokens seed : Int)
    (hctx : self.ctx_ = some ctx) :
    ∃ out,
      Sample lib base now self top_k top_p temperature repetition_penalty
        last_n_tokens seed = some out ∧
      let n := if last_n_tokens < 0 then base.ContextLength self.toLLM else last_n_tokens
      let ctx1 : llama_context Rng Rest :=
        { ctx with rng := lib.rng_seed (if seed < 0 then wrapInt32 now else seed) }
      let n_vocab := lib.llama_n_vocab ctx1
      let candidates_p : llama_token_data_array F :=
        ⟨(List.range n_vocab.toNat).map
            (fun (i : Nat) => (⟨(i : Int), lib.llama_get_logits ctx1 (i : Int), 0⟩ :
              llama_token_data F)),
          n_vocab.toNat, false⟩
      let recent : List Int :=
        if repetition_penalty = 1 then []
        else (base.GetRecent self.previous_tokens_ n).elems
      let r1 := lib.llama_sample_repetition_penalty ctx1 candidates_p recent recent.length
        repetition_penalty
      let r2 := lib.llama_sample_top_k r1.1 r1.2 top_k 1
      let r3 := lib.llama_sample_top_p r2.1 r2.2 top_p 1
      let r4 := lib.llama_sample_temperature r3.1 r3.2 temperature
      let r5 := lib.llama_sample_token r4.1 r4.2
      out.value = r5.2 ∧ out.self = { self with ctx_ := some r5.1 } ∧
      VocabSize lib { self with ctx_ := some ctx1 } = some n_vocab ∧
      recent.Nodup ∧
      (repetition_penalty ≠ 1 →
        ∀ t, t ∈ recent ↔ t ∈ (base.GetRecent self.previous_tokens_ n).elems) ∧
      Call.llama_sample_repetition_penalty ctx1 candidates_p recent recent.length
        repetition_penalty ∈ out.calls := by
  refine ⟨_, by simp only [Sample, hctx]; rfl, ?_⟩
  simp only [candidatesLoop_full, List.length_map, List.length_range]
  by_cases hp : repetition_penalty = 1
  · simp [hp, unordered_set.empty, VocabSize]
  · simp only [hp, ne_eq, not_false_eq_true, if_true, if_false]
    simp only [VocabSize, List.mem_append, List.mem_cons, true_or, or_true, and_true,
      true_and, implies_true]
    exact (base.GetRecent _ _).nodup

/-- C10 at concrete inputs, on `greedyLib` and `demoObj`, whose last two tokens are
`1, 1` and whose logits are `5, 7, 6`: with penalty 2 the step receives the list `[1]`
and the three candidates, token 1 is lowered and token 2 is drawn; with penalty 1 the
step receives the empty list and token 1 is drawn. -/
theorem Sample_repetition_penalty_arguments_witness :
    demoObj.ctx_ = some demoCtx ∧
    (Sample greedyLib demoBase 1000 demoObj 1 1 1 2 2 42).map (fun o => o.value) = some 2 ∧
    (Sample greedyLib demoBase 1000 demoObj 1 1 1 1 2 42).map (fun o => o.value) = some 1 := by
  obtain ⟨outA, hA, hvA, -⟩ :=
    Sample_repetition_penalty_arguments greedyLib demoBase demoObj demoCtx 1000 1 1 1 2 2 42
      rfl
  obtain ⟨outB, hB, hvB, -⟩ :=
    Sample_repetition_penalty_arguments greedyLib demoBase demoObj demoCtx 1000 1 1 1 1 2 42
      rfl
  refine ⟨rfl, ?_, ?_⟩
  · rw [hA, Option.map_some', hvA]
    decide
  · rw [hB, Option.map_some', hvB]
    decide

end Llama
